import Mathlib

/-!
Shallow embedding of the SNB-Data-Streamliner repository
(src/extractor.py and src/__main__.py) and verification of its
specification claims.

Modelling conventions:
* CSV byte content is a `List Nat` of byte values; row-level CSV data is a
  `List (List String)` (records of fields).
* The reference table file (`metadata/cubes_list.csv`) is an
  `Option (List (List String))`: `none` models a missing/unreadable file,
  `some rows` the parsed `csv.reader` output (records of `;`-split fields).
* Python exceptions are `Except` errors; the exception classes that can
  actually arise in each function are listed in the error inductives.
* `random()` is modelled as an ambient stream `Nat → ℚ` of draws, each draw
  assumed (where a claim needs it) to lie in `[0, 1)`.
* The on-disk filesystem is a pair of a directory list and an association
  list from paths to byte contents.
-/

namespace SNBStream

/-- Python `zip(*rows)` as a list of tuples: the number of output tuples is
the minimum record length over all rows (zero when there are no rows), and
tuple `i` collects element `i` of every row, in row order.  This is the
exact iteration behaviour `valid_cubes_ids`, `list_info_cubes` and
`is_valid_cube_id` rely on in src/extractor.py. -/
def zipStar (rows : List (List String)) : List (List String) :=
  match rows with
  | [] => []
  | r :: rs =>
    let n := (rs.map List.length).foldl Nat.min r.length
    (List.range n).map (fun i => (r :: rs).map (fun row => row.getD i ""))

/-- The exceptions the registry functions in src/extractor.py can raise:
`fileNotFound` for `open` on a missing `PATH_CUBES_LIST`, `stopIteration`
for `next` on an exhausted iterator, `valueError` for a failed tuple
unpacking (`a, b = ...` with the wrong number of values). -/
inductive RegError
  | fileNotFound
  | stopIteration
  | valueError
deriving DecidableEq, Repr

/-- `valid_cubes_ids` (src/extractor.py lines 75-79): opens the reference
table and returns `next(zip(*reader))`, the tuple of every record's FIRST
field — header line included.  `next` on an empty zip raises
StopIteration. -/
def valid_cubes_ids (table : Option (List (List String))) :
    Except RegError (List String) :=
  match table with
  | none => .error .fileNotFound
  | some rows =>
    match zipStar rows with
    | [] => .error .stopIteration
    | c :: _ => .ok c

/-- `list_info_cubes` (src/extractor.py lines 82-96): unpacks the header
record into exactly two columns, then unpacks `zip(*reader)` of the
remaining records into exactly two column tuples, and renders them for
display.  The display-string formatting (column padding and title casing)
is presentation only; the model returns the `(identifier, description)`
pairs that formatting renders.  An empty table raises StopIteration at
`next(reader)`; a header without exactly two fields, or a remaining-record
zip without exactly two tuples, raises ValueError at unpacking. -/
def list_info_cubes (table : Option (List (List String))) :
    Except RegError (List (String × String)) :=
  match table with
  | none => .error .fileNotFound
  | some [] => .error .stopIteration
  | some (header :: rest) =>
    match header with
    | [h1, h2] =>
      match zipStar rest with
      | [c1, c2] => .ok ((h1, h2) :: c1.zip c2)
      | _ => .error .valueError
    | _ => .error .valueError

/-- `is_valid_cube_id` (src/extractor.py lines 99-104): unpacks
`zip(*reader)` — over ALL records, header included — into exactly two
column tuples and tests membership of `cube_id` in the first. -/
def is_valid_cube_id (table : Option (List (List String)))
    (cube_id : String) : Except RegError Bool :=
  match table with
  | none => .error .fileNotFound
  | some rows =>
    match zipStar rows with
    | [cube_ids, _] => .ok (cube_ids.contains cube_id)
    | _ => .error .valueError

/-- The identifier-validation step of the CLI `main`
(src/__main__.py lines 76-79): fetch `valid_cubes_ids()` and accept a cube
exactly when it is a member of that tuple. -/
def main_cube_check (table : Option (List (List String)))
    (cube : String) : Except RegError Bool :=
  match valid_cubes_ids table with
  | .error e => .error e
  | .ok ids => .ok (ids.contains cube)

/-- The exceptions the fetch/parse paths can raise: `attributeError` for
`self.session.get` when `session` is `None`, `emptyDataError` for pandas
`read_csv` on data with no rows left after skipping. -/
inductive PyErr
  | attributeError
  | emptyDataError
deriving DecidableEq, Repr

/-- `pd.read_csv(..., sep=';', skiprows=n)` modelled at the record level:
the input is the `;`-split records of the text, the first `n` records are
skipped, the next record is the header (column names) and the remaining
records are the data rows.  Pandas raises EmptyDataError when nothing is
left.  (Pandas' handling of blank lines and of rows with inconsistent
field counts is not exercised by any claim and is not modelled.) -/
def read_csv (rows : List (List String)) (skiprows : Nat) :
    Except PyErr (List String × List (List String)) :=
  match rows.drop skiprows with
  | [] => .error .emptyDataError
  | header :: dataRows => .ok (header, dataRows)

/-- Split a byte list on a separator byte, `str.split` style: the result
always has one more part than there are separator occurrences. -/
def splitOnSep (sep : Nat) (bs : List Nat) : List (List Nat) :=
  bs.foldr
    (fun b acc =>
      match acc with
      | [] => [[b]]
      | cur :: rest => if b = sep then [] :: (cur :: rest) else (b :: cur) :: rest)
    [[]]

/-- Decode CSV bytes into records of fields: split on newline (byte 10),
then split each line on `;` (byte 59), then decode each field's bytes as
characters. -/
def decodeRows (bs : List Nat) : List (List String) :=
  (splitOnSep 10 bs).map fun line =>
    (splitOnSep 59 line).map fun field =>
      String.mk (field.map Char.ofNat)

/-- Query/extra parameters, modelled as ordered association lists of
key-value pairs (Python dicts; keyword arguments guarantee unique keys). -/
abbrev Params := List (String × String)

/-- Python dict union `d1 | d2`: the keys of `d1` in their order (each with
`d2`'s value when `d2` also has the key — the RIGHT operand wins on
collision), followed by the keys of `d2` not already in `d1`. -/
def dictUnion (d1 d2 : Params) : Params :=
  (d1.map fun kv =>
    match d2.lookup kv.1 with
    | some v => (kv.1, v)
    | none => kv)
  ++ d2.filter fun kv => (d1.lookup kv.1).isNone

/-- A `requests.Session`: the only state the embedding needs is whether
`close()` has been called on it.  In the `requests` library a closed
session still serves `get` requests (closing only clears the connection
pools, which are recreated on demand), so no operation here guards on
`closed`. -/
structure Session where
  closed : Bool
deriving DecidableEq, Repr

/-- `SNBDataEngine`: `__init__` hard-codes the base URL and sets
`self.session = None`.  Logging configuration is a side effect only and is
not modelled. -/
structure Engine where
  base_url : String
  session : Option Session
deriving DecidableEq, Repr

/-- `SNBDataEngine(...)` — `__init__` (src/extractor.py lines 131-143). -/
def Engine.init : Engine :=
  ⟨"https://data.snb.ch/api/cube", none⟩

/-- `__enter__` (src/extractor.py lines 145-155): creates a fresh
`requests.Session` (installing fixed default headers) and returns the
engine. -/
def Engine.enter (e : Engine) : Engine :=
  ⟨e.base_url, some ⟨false⟩⟩

/-- `__exit__` (src/extractor.py lines 157-165): if `self.session` is
truthy, call `session.close()`.  `self.session` is never reset to `None`,
so a second `__exit__` calls `close()` on the already-closed session —
which in `requests` is a harmless no-op. -/
def Engine.exit (e : Engine) : Engine :=
  match e.session with
  | none => e
  | some _ => ⟨e.base_url, some ⟨true⟩⟩

/-- The query parameters `_get_stream` builds before merging extras
(src/extractor.py lines 171-173): always `outputFormat=nonPivoted`; the
selection parameter is added under `if selection:` — Python truthiness, so
an ABSENT selection and an EMPTY-STRING selection both omit it. -/
def get_stream_params (selection : Option String) : Params :=
  match selection with
  | none => [("outputFormat", "nonPivoted")]
  | some s =>
    if s = "" then [("outputFormat", "nonPivoted")]
    else [("outputFormat", "nonPivoted"),
          ("selectionConfigurations", "selectionConfiguration," ++ s)]

/-- The request `session.get` is issued with: target URL and merged
parameters. -/
structure Request where
  url : String
  params : Params
deriving DecidableEq, Repr

/-- `_get_stream` (src/extractor.py lines 168-175): builds the URL
`{base_url}/{cube_id}/data/csv/en` and parameters
`params | config`, then calls `self.session.get(url, ...)`.  There is no
state check: when `session` is `None` (engine never entered) the attribute
access `self.session.get` raises AttributeError; a closed session still
issues the request. -/
def Engine.get_stream (e : Engine) (cube_id : String)
    (selection : Option String) (config : Params) :
    Except PyErr Request :=
  match e.session with
  | none => .error .attributeError
  | some _ =>
    .ok ⟨e.base_url ++ "/" ++ cube_id ++ "/data/csv/en",
         dictUnion (get_stream_params selection) config⟩

/-- The on-disk filesystem: the set of existing directories and an
association list from file paths to byte contents (all entries are
regular files). -/
structure FS where
  dirs : List String
  files : List (String × List Nat)
deriving DecidableEq, Repr

/-- All slash-separated ancestor prefixes of a path, longest last:
`"a/b/c"` gives `["a", "a/b", "a/b/c"]`. -/
def pathAncestors (p : String) : List String :=
  let parts := p.splitOn "/"
  (List.range parts.length).map fun i =>
    String.intercalate "/" (parts.take (i + 1))

/-- Create a single directory if absent (`exist_ok=True`). -/
def insertDir (ds : List String) (d : String) : List String :=
  if ds.contains d then ds else ds ++ [d]

/-- `Path(folder).mkdir(parents=True, exist_ok=True)`: create the
directory and every ancestor, skipping those that already exist. -/
def mkdirParents (folder : String) (fs : FS) : FS :=
  ⟨(pathAncestors folder).foldl insertDir fs.dirs, fs.files⟩

/-- `open(path, 'wb')` followed by writing `content`: any existing file at
`path` is silently overwritten. -/
def fsWrite (fs : FS) (path : String) (content : List Nat) : FS :=
  ⟨fs.dirs, (path, content) :: fs.files.filter fun pc => pc.1 != path⟩

/-- `response.iter_content(chunk_size=n)` over a body of `bs` bytes:
successive chunks of exactly `n` bytes, the last possibly shorter; an
empty body yields no chunks.  (`n = 0` is not used by the source, which
hard-codes 8192; the model returns no chunks there to stay total.) -/
def chunksOf (n : Nat) (bs : List Nat) : List (List Nat) :=
  if _h : bs.length = 0 ∨ n = 0 then []
  else bs.take n :: chunksOf n (bs.drop n)
termination_by bs.length
decreasing_by simp [List.length_drop]; omega

/-- `selection or 'all'` (src/extractor.py line 179): Python truthiness
again — `None` and `""` both fall back to `"all"`. -/
def selOrAll : Option String → String
  | none => "all"
  | some s => if s = "" then "all" else s

/-- The destination path `Path(folder) / f"{cube_id}_{selection or 'all'}.csv"`. -/
def downloadPath (folder cube_id : String) (selection : Option String) :
    String :=
  folder ++ "/" ++ cube_id ++ "_" ++ selOrAll selection ++ ".csv"

/-- `download_to_file` (src/extractor.py lines 177-192): compute the
destination path, create its parent directory tree, issue the streaming
GET, and write the response body to the path chunk by chunk
(`iter_content(chunk_size=8192)`), overwriting any existing file.  `body`
is the response's byte content for this request.  Returns the updated
filesystem and the path. -/
def Engine.download_to_file (e : Engine) (cube_id : String)
    (selection : Option String) (folder : String) (config : Params)
    (body : List Nat) (fs : FS) : Except PyErr (FS × String) :=
  let path := downloadPath folder cube_id selection
  let fs1 := mkdirParents folder fs
  match e.get_stream cube_id selection config with
  | .error err => .error err
  | .ok _ =>
    let content := (chunksOf 8192 body).foldl (fun acc c => acc ++ c) []
    .ok (fsWrite fs1 path content, path)

/-- The loop body of `download_to_files` (src/extractor.py lines
197-205): download each cube in order; after EVERY download — the last
included — when the ORIGINAL list has more than one element, sleep
`min(random()*5, 2)` seconds.  `total` is the original list's length,
`rng i` the `i`-th `random()` draw, `bodies` the response body per cube.
Returns the filesystem, the paths in order, and the slept durations in
order. -/
def downloadFilesGo (e : Engine) (selection : Option String)
    (folder : String) (config : Params) (bodies : String → List Nat)
    (rng : Nat → ℚ) (total : Nat) :
    List String → Nat → FS → Except PyErr (FS × List String × List ℚ)
  | [], _, fs => .ok (fs, [], [])
  | c :: cs, i, fs =>
    match e.download_to_file c selection folder config (bodies c) fs with
    | .error err => .error err
    | .ok (fs1, p) =>
      let pause : List ℚ := if total > 1 then [min (rng i * 5) 2] else []
      match downloadFilesGo e selection folder config bodies rng total cs
          (i + 1) fs1 with
      | .error err => .error err
      | .ok (fs2, ps, ss) => .ok (fs2, p :: ps, pause ++ ss)

/-- `download_to_files` (src/extractor.py lines 194-207). -/
def Engine.download_to_files (e : Engine) (cubes_ids : List String)
    (selection : Option String) (folder : String) (config : Params)
    (bodies : String → List Nat) (rng : Nat → ℚ) (fs : FS) :
    Except PyErr (FS × List String × List ℚ) :=
  downloadFilesGo e selection folder config bodies rng cubes_ids.length
    cubes_ids 0 fs

/-- `download_to_dataframe` (src/extractor.py lines 209-219): issue the
GET, then `pd.read_csv(BytesIO(r.content), sep=';', skiprows=2)` over the
full response body.  `bodyRows` is the record-level content of the
response for this request. -/
def Engine.download_to_dataframe (e : Engine) (cube_id : String)
    (selection : Option String) (config : Params)
    (bodyRows : List (List String)) :
    Except PyErr (List String × List (List String)) :=
  match e.get_stream cube_id selection config with
  | .error err => .error err
  | .ok _ => read_csv bodyRows 2

/-- `csv_to_dataframe` (src/extractor.py lines 107-111): if the path
exists and is a regular file, parse it with
`pd.read_csv(..., sep=';', skiprows=skiprows)`; otherwise fall through and
return `None` (absent result, no exception).  A parse error propagates
only after the existence pre-check passed. -/
def csv_to_dataframe (fs : FS) (path_csv : String) (skiprows : Nat) :
    Except PyErr (Option (List String × List (List String))) :=
  match fs.files.lookup path_csv with
  | none => .ok none
  | some content =>
    match read_csv (decodeRows content) skiprows with
    | .error e => .error e
    | .ok t => .ok (some t)

/-! ### Helper lemmas -/

/-- Reassembling the chunks of `iter_content` reproduces the body. -/
theorem chunksOf_flatten (n : Nat) (hn : 0 < n) (bs : List Nat) :
    (chunksOf n bs).flatten = bs := by
  rw [chunksOf]
  split
  next h =>
    rcases h with h | h
    · simp [List.length_eq_zero.mp h]
    · omega
  next h =>
    have ih := chunksOf_flatten n hn (bs.drop n)
    simp [ih, List.take_append_drop]
termination_by bs.length
decreasing_by simp [List.length_drop]; omega

theorem foldl_append_eq_flatten (l : List (List Nat)) (a : List Nat) :
    l.foldl (fun acc c => acc ++ c) a = a ++ l.flatten := by
  induction l generalizing a with
  | nil => simp
  | cons c t ih => simp [ih, List.append_assoc]

/-- The chunked write loop of `download_to_file` writes exactly the body. -/
theorem chunks_written_eq_body (n : Nat) (hn : 0 < n) (bs : List Nat) :
    (chunksOf n bs).foldl (fun acc c => acc ++ c) [] = bs := by
  rw [foldl_append_eq_flatten, chunksOf_flatten n hn, List.nil_append]

theorem lookup_append (l1 l2 : Params) (k : String) :
    (l1 ++ l2).lookup k =
      match l1.lookup k with
      | some v => some v
      | none => l2.lookup k := by
  induction l1 with
  | nil => simp [List.lookup]
  | cons kv t ih =>
    rcases kv with ⟨k1, v1⟩
    cases h : (k == k1) <;> simp [List.lookup, h, ih]

theorem lookup_override_map (d1 d2 : Params) (k : String) :
    (d1.map fun kv =>
      match d2.lookup kv.1 with
      | some v => (kv.1, v)
      | none => kv).lookup k =
      match d1.lookup k with
      | none => none
      | some v1 =>
        match d2.lookup k with
        | some v2 => some v2
        | none => some v1 := by
  induction d1 with
  | nil => simp [List.lookup]
  | cons kv t ih =>
    rcases kv with ⟨k1, v1⟩
    cases h : (k == k1)
    · cases h2 : d2.lookup k1 <;>
        simp [List.lookup, h2, h, ih]
    · have hk : k = k1 := eq_of_beq h
      subst hk
      cases h2 : d2.lookup k <;>
        simp [List.lookup, h2, h]

theorem lookup_filter_fresh (d1 d2 : Params) (k : String) :
    (d2.filter fun kv => (d1.lookup kv.1).isNone).lookup k =
      match d1.lookup k with
      | some _ => none
      | none => d2.lookup k := by
  induction d2 with
  | nil => cases d1.lookup k <;> simp [List.lookup]
  | cons kv t ih =>
    rcases kv with ⟨k2, v2⟩
    rw [List.filter_cons]
    cases h1 : (d1.lookup k2).isNone
    · simp only [h1, Bool.false_eq_true, if_false, ih]
      cases h : (k == k2)
      · cases hd : d1.lookup k <;> simp [List.lookup, h, hd]
      · have hk : k = k2 := eq_of_beq h
        subst hk
        cases hd : d1.lookup k
        · rw [hd] at h1; simp at h1
        · simp
    · simp only [h1, if_true]
      cases h : (k == k2)
      · cases hd : d1.lookup k <;> simp [List.lookup, h, hd, ih]
      · have hk : k = k2 := eq_of_beq h
        subst hk
        cases hd : d1.lookup k
        · simp [List.lookup, h]
        · rw [hd] at h1; simp at h1

/-- Lookup in a Python dict union: the right operand wins on collision. -/
theorem lookup_dictUnion (d1 d2 : Params) (k : String) :
    (dictUnion d1 d2).lookup k =
      match d2.lookup k with
      | some v => some v
      | none => d1.lookup k := by
  unfold dictUnion
  rw [lookup_append, lookup_override_map, lookup_filter_fresh]
  cases hd1 : d1.lookup k <;> cases hd2 : d2.lookup k <;> simp

/-- Merging an empty extra-parameter dict is the identity. -/
theorem dictUnion_nil (d : Params) : dictUnion d [] = d := by
  simp [dictUnion, List.lookup]

theorem mem_insertDir (ds : List String) (d x : String) (hx : x ∈ ds) :
    x ∈ insertDir ds d := by
  unfold insertDir
  split
  · exact hx
  · exact List.mem_append_left _ hx

theorem self_mem_insertDir (ds : List String) (d : String) :
    d ∈ insertDir ds d := by
  unfold insertDir
  split
  next h => simpa using h
  next h => simp

theorem mem_foldl_insertDir_of_mem (l : List String) (ds : List String)
    (x : String) (hx : x ∈ ds) : x ∈ l.foldl insertDir ds := by
  induction l generalizing ds with
  | nil => simpa using hx
  | cons a t ih => exact ih _ (mem_insertDir ds a x hx)

theorem mem_foldl_insertDir (l : List String) (ds : List String)
    (x : String) (hx : x ∈ l) : x ∈ l.foldl insertDir ds := by
  induction l generalizing ds with
  | nil => cases hx
  | cons a t ih =>
    rcases List.mem_cons.mp hx with rfl | hx'
    · exact mem_foldl_insertDir_of_mem t _ x (self_mem_insertDir ds x)
    · exact ih _ hx'

/-- Every ancestor of the target directory exists after `mkdir(parents=True)`. -/
theorem mkdirParents_mem (folder : String) (fs : FS) (d : String)
    (hd : d ∈ pathAncestors folder) : d ∈ (mkdirParents folder fs).dirs :=
  mem_foldl_insertDir _ _ _ hd

/-- `_get_stream` on an engine holding a session (open or closed) issues the
request built from the URL template and the merged parameters. -/
theorem get_stream_some (e : Engine) (s : Session) (hs : e.session = some s)
    (cube_id : String) (selection : Option String) (config : Params) :
    e.get_stream cube_id selection config =
      .ok ⟨e.base_url ++ "/" ++ cube_id ++ "/data/csv/en",
           dictUnion (get_stream_params selection) config⟩ := by
  unfold Engine.get_stream
  rw [hs]

/-- `download_to_file` on an engine holding a session: the result state and
path, explicitly. -/
theorem download_to_file_some (e : Engine) (s : Session)
    (hs : e.session = some s) (cube_id : String) (selection : Option String)
    (folder : String) (config : Params) (body : List Nat) (fs : FS) :
    e.download_to_file cube_id selection folder config body fs =
      .ok (fsWrite (mkdirParents folder fs) (downloadPath folder cube_id selection) body,
           downloadPath folder cube_id selection) := by
  unfold Engine.download_to_file
  rw [get_stream_some e s hs]
  simp [chunks_written_eq_body 8192 (by norm_num) body]

theorem foldl_min_const_two (l : List (String × String)) :
    ((l.map fun _ => 2).foldl Nat.min 2) = 2 := by
  induction l with
  | nil => rfl
  | cons p t ih => simpa [Nat.min_self] using ih

/-- `zip(*rows)` over a well-formed table — every record exactly two
fields — yields exactly the two columns. -/
theorem zipStar_pairs (h1 h2 : String) (rest : List (String × String)) :
    zipStar ([h1, h2] :: rest.map fun p => [p.1, p.2]) =
      [h1 :: rest.map Prod.fst, h2 :: rest.map Prod.snd] := by
  have hlen : ((rest.map fun p => [p.1, p.2]).map List.length) =
      rest.map fun _ => 2 := by
    rw [List.map_map]
    exact List.map_congr_left fun a _ => rfl
  show (let n := ((rest.map fun p => [p.1, p.2]).map List.length).foldl
          Nat.min ([h1, h2].length)
        (List.range n).map fun i =>
          (([h1, h2] :: rest.map fun p => [p.1, p.2]).map fun row =>
            row.getD i "")) = _
  rw [hlen]
  rw [show ([h1, h2] : List String).length = 2 from rfl, foldl_min_const_two]
  show (List.range 2).map (fun i =>
      (([h1, h2] :: rest.map fun p => [p.1, p.2]).map fun row =>
        row.getD i "")) = _
  rw [show List.range 2 = [0, 1] from rfl]
  simp only [List.map_cons, List.map_nil, List.map_map]
  refine congrArg₂ _ (congrArg _ ?_) (congrArg₂ _ (congrArg _ ?_) rfl) <;>
    exact List.map_congr_left fun a _ => rfl

/-! ### Claim theorems -/

/-- C2: for every identifier and non-empty selection, the request built by
`_get_stream` targets the URL `{base}/{id}/data/csv/en` with query
`outputFormat=nonPivoted` and
`selectionConfigurations=selectionConfiguration,{selection}`; with no
selection, the selection parameter is omitted entirely. -/
theorem claim_C2 (e : Engine) (s : Session) (hs : e.session = some s)
    (cube_id sel : String) (hsel : sel ≠ "") :
    e.get_stream cube_id (some sel) [] =
      .ok ⟨e.base_url ++ "/" ++ cube_id ++ "/data/csv/en",
           [("outputFormat", "nonPivoted"),
            ("selectionConfigurations", "selectionConfiguration," ++ sel)]⟩ ∧
    e.get_stream cube_id none [] =
      .ok ⟨e.base_url ++ "/" ++ cube_id ++ "/data/csv/en",
           [("outputFormat", "nonPivoted")]⟩ := by
  constructor
  · rw [get_stream_some e s hs, dictUnion_nil]
    simp [get_stream_params, hsel]
  · rw [get_stream_some e s hs, dictUnion_nil]
    rfl

/-- C2 witness: the request for cube `rentm` with selection
`balsiscrevol` on a freshly opened engine. -/
theorem claim_C2_witness :
    Engine.init.enter.get_stream "rentm" (some "balsiscrevol") [] =
      .ok ⟨"https://data.snb.ch/api/cube/rentm/data/csv/en",
           [("outputFormat", "nonPivoted"),
            ("selectionConfigurations",
             "selectionConfiguration,balsiscrevol")]⟩ :=
  (claim_C2 Engine.init.enter ⟨false⟩ rfl "rentm" "balsiscrevol"
    (by decide)).1

/-- C4 counterexample: an extra parameter colliding with the fixed
`outputFormat` key OVERRIDES the fixed value (`params | config` lets the
right operand win), contradicting the claim that the fixed value is
kept. -/
theorem claim_C4_counterexample :
    (Engine.init.enter.get_stream "rentm" none
        [("outputFormat", "csv")]).map
      (fun r => r.params.lookup "outputFormat") = .ok (some "csv") := rfl

/-- C4 (amended): on a key collision the caller-supplied extra parameter
overrides the fixed/selection parameter — Python dict union
`params | config` gives the right operand's value. -/
theorem claim_C4 (e : Engine) (s : Session) (hs : e.session = some s)
    (cube_id : String) (selection : Option String) (config : Params)
    (k v : String) (hk : config.lookup k = some v) :
    (e.get_stream cube_id selection config).map
      (fun r => r.params.lookup k) = .ok (some v) := by
  rw [get_stream_some e s hs]
  simp only [Except.map]
  rw [lookup_dictUnion, hk]

/-- C4 witness: a colliding `selectionConfigurations` extra wins over the
selection-derived parameter. -/
theorem claim_C4_witness :
    (Engine.init.enter.get_stream "rentm" (some "bal")
        [("selectionConfigurations", "mine")]).map
      (fun r => r.params.lookup "selectionConfigurations") =
      .ok (some "mine") :=
  claim_C4 Engine.init.enter ⟨false⟩ rfl "rentm" (some "bal")
    [("selectionConfigurations", "mine")] "selectionConfigurations" "mine"
    rfl

/-- C10: an empty-string selection is treated identically to an absent
selection — `_get_stream` builds the same request (the selection parameter
is omitted) and `download_to_file` names the output `{id}_all.csv`. -/
theorem claim_C10 (e : Engine) (cube_id folder : String) (config : Params) :
    e.get_stream cube_id (some "") config =
      e.get_stream cube_id none config ∧
    downloadPath folder cube_id (some "") =
      downloadPath folder cube_id none ∧
    downloadPath folder cube_id none =
      folder ++ "/" ++ cube_id ++ "_all.csv" := by
  refine ⟨?_, rfl, ?_⟩
  · unfold Engine.get_stream
    rw [show get_stream_params (some "") = get_stream_params none from rfl]
  · show folder ++ "/" ++ cube_id ++ "_" ++ "all" ++ ".csv" = _
    rw [String.append_assoc (folder ++ "/" ++ cube_id) "_" "all",
        show ("_" ++ "all" : String) = "_all" from rfl,
        String.append_assoc (folder ++ "/" ++ cube_id) "_all" ".csv",
        show ("_all" ++ ".csv" : String) = "_all.csv" from rfl]

/-- C3 counterexample: a fetch operation invoked AFTER `close()` does not
fail at all — the request is issued on the closed session — contradicting
the claim that it fails with an InvalidStateError. -/
theorem claim_C3_counterexample :
    Engine.init.enter.exit.get_stream "rentm" none [] =
      .ok ⟨"https://data.snb.ch/api/cube/rentm/data/csv/en",
           [("outputFormat", "nonPivoted")]⟩ := rfl

/-- C3 (amended): no InvalidStateError exists.  A fetch before `open()`
fails with an AttributeError (`self.session` is `None`); a fetch after
`close()` succeeds — the request is issued on the closed session; a second
`close()` does not raise and leaves the engine state unchanged. -/
theorem claim_C3 (cube_id : String) (selection : Option String)
    (config : Params) :
    Engine.init.get_stream cube_id selection config =
      .error .attributeError ∧
    Engine.init.enter.exit.get_stream cube_id selection config =
      .ok ⟨Engine.init.base_url ++ "/" ++ cube_id ++ "/data/csv/en",
           dictUnion (get_stream_params selection) config⟩ ∧
    Engine.init.enter.exit.exit = Engine.init.enter.exit := by
  exact ⟨rfl, get_stream_some _ ⟨true⟩ rfl _ _ _, rfl⟩

/-- C8: when the file-existence pre-check fails, `csv_to_dataframe`
returns an absent result instead of raising; an error is raised only when
the pre-check passed. -/
theorem claim_C8 (fs : FS) (p : String) (skiprows : Nat)
    (hpre : fs.files.lookup p = none) :
    csv_to_dataframe fs p skiprows = .ok none ∧
    ∀ (fs' : FS) (p' : String) (k : Nat) (err : PyErr),
      csv_to_dataframe fs' p' k = .error err →
      (fs'.files.lookup p').isSome = true := by
  constructor
  · unfold csv_to_dataframe
    rw [hpre]
  · intro fs' p' k err h
    unfold csv_to_dataframe at h
    cases hl : fs'.files.lookup p' with
    | none => rw [hl] at h; simp at h
    | some c => rfl

/-- C8 witness: a missing path in an empty filesystem yields the absent
result. -/
theorem claim_C8_witness :
    csv_to_dataframe ⟨[], []⟩ "data/raw/rentm_all.csv" 2 = .ok none :=
  (claim_C8 ⟨[], []⟩ "data/raw/rentm_all.csv" 2 rfl).1

/-- A reference table whose last record has only one field after
delimiter splitting. -/
def malformedTable : List (List String) :=
  [["cube_id", "description"], ["rentm", "Mortgage rates"], ["xyz"]]

/-- C6 counterexample: on a table containing a record without exactly two
fields, `valid_cubes_ids` does NOT fail — it silently truncates every
record to the shortest length and returns the first column — contradicting
the claim that each Registry operation fails with a
MalformedRecordError. -/
theorem claim_C6_counterexample :
    valid_cubes_ids (some malformedTable) =
      .ok ["cube_id", "rentm", "xyz"] := rfl

/-- C6 (amended): a missing/unreadable reference table makes every
Registry operation fail with a FileNotFoundError; but on a record lacking
exactly two fields, `valid_cubes_ids` succeeds (it truncates to the
shortest record), while `list_info_cubes` and `is_valid_cube_id` fail with
a ValueError-equivalent unpacking error. -/
theorem claim_C6 (cube : String) :
    valid_cubes_ids none = .error .fileNotFound ∧
    list_info_cubes none = .error .fileNotFound ∧
    is_valid_cube_id none cube = .error .fileNotFound ∧
    valid_cubes_ids (some malformedTable) =
      .ok ["cube_id", "rentm", "xyz"] ∧
    list_info_cubes (some malformedTable) = .error .valueError ∧
    is_valid_cube_id (some malformedTable) cube = .error .valueError :=
  ⟨rfl, rfl, rfl, rfl, rfl, rfl⟩

/-- C9: on a well-formed reference table, `valid_cubes_ids` returns the
first field of EVERY line, header included; so the header's
identifier-column name is itself accepted by `is_valid_cube_id` and by the
CLI's validation loop. -/
theorem claim_C9 (h1 h2 : String) (rest : List (String × String)) :
    valid_cubes_ids (some ([h1, h2] :: rest.map fun p => [p.1, p.2])) =
      .ok (h1 :: rest.map Prod.fst) ∧
    is_valid_cube_id (some ([h1, h2] :: rest.map fun p => [p.1, p.2])) h1 =
      .ok true ∧
    main_cube_check (some ([h1, h2] :: rest.map fun p => [p.1, p.2])) h1 =
      .ok true := by
  have hz := zipStar_pairs h1 h2 rest
  refine ⟨?_, ?_, ?_⟩
  · simp only [valid_cubes_ids, hz]
  · simp only [is_valid_cube_id, hz]
    simp
  · simp only [main_cube_check, valid_cubes_ids, hz]
    simp

/-- C5: on a body of 2 metadata records, 1 header record and N data
records, `download_to_dataframe` — and `read_csv` with its hard-coded
`skiprows=2`, and `csv_to_dataframe` with `skiprows=2` on a file holding
that content — skips exactly the 2 metadata records and returns the table
whose column names are the header record's fields and whose rows are
exactly the N data records. -/
theorem claim_C5 (e : Engine) (s : Session) (hs : e.session = some s)
    (cube_id : String) (selection : Option String) (config : Params)
    (m1 m2 hdr : List String) (ds : List (List String))
    (fs : FS) (p : String) (bytes : List Nat)
    (hfile : fs.files.lookup p = some bytes)
    (hdec : decodeRows bytes = m1 :: m2 :: hdr :: ds) :
    read_csv (m1 :: m2 :: hdr :: ds) 2 = .ok (hdr, ds) ∧
    e.download_to_dataframe cube_id selection config
        (m1 :: m2 :: hdr :: ds) = .ok (hdr, ds) ∧
    csv_to_dataframe fs p 2 = .ok (some (hdr, ds)) := by
  have hr : read_csv (m1 :: m2 :: hdr :: ds) 2 = .ok (hdr, ds) := rfl
  refine ⟨hr, ?_, ?_⟩
  · unfold Engine.download_to_dataframe
    rw [get_stream_some e s hs]
    exact hr
  · unfold csv_to_dataframe
    simp only [hfile]
    rw [hdec, hr]

/-- The byte content of the CSV text
`"m;1\nm;2\nDate;Value\n1;2"`: two metadata records, a header record and
one data record. -/
def sampleCsvBytes : List Nat :=
  [109, 59, 49, 10, 109, 59, 50, 10,
   68, 97, 116, 101, 59, 86, 97, 108, 117, 101, 10, 49, 59, 50]

/-- C5 witness: the sample CSV file parses to one data row under the
header `Date;Value`. -/
theorem claim_C5_witness :
    read_csv [["m", "1"], ["m", "2"], ["Date", "Value"], ["1", "2"]] 2 =
      .ok (["Date", "Value"], [["1", "2"]]) ∧
    Engine.init.enter.download_to_dataframe "rentm" none []
        [["m", "1"], ["m", "2"], ["Date", "Value"], ["1", "2"]] =
      .ok (["Date", "Value"], [["1", "2"]]) ∧
    csv_to_dataframe ⟨[], [("f.csv", sampleCsvBytes)]⟩ "f.csv" 2 =
      .ok (some (["Date", "Value"], [["1", "2"]])) :=
  claim_C5 Engine.init.enter ⟨false⟩ rfl "rentm" none []
    ["m", "1"] ["m", "2"] ["Date", "Value"] [["1", "2"]]
    ⟨[], [("f.csv", sampleCsvBytes)]⟩ "f.csv" sampleCsvBytes rfl
    (by decide)

/-- C7: `download_to_file` returns the path
`{folder}/{id}_{selection-or-all}.csv`, creates the target directory tree,
and writes the response body to that path in 8 KiB chunks whose
concatenation is exactly the body — overwriting whatever file was there
(the result holds for EVERY prior filesystem, in particular one already
holding a file at that path). -/
theorem claim_C7 (e : Engine) (s : Session) (hs : e.session = some s)
    (cube_id : String) (selection : Option String) (folder : String)
    (config : Params) (body : List Nat) (fs : FS) :
    ∃ fs' : FS,
      e.download_to_file cube_id selection folder config body fs =
        .ok (fs', downloadPath folder cube_id selection) ∧
      downloadPath folder cube_id selection =
        folder ++ "/" ++ cube_id ++ "_" ++ selOrAll selection ++ ".csv" ∧
      fs'.files.lookup (downloadPath folder cube_id selection) =
        some body ∧
      ∀ d ∈ pathAncestors folder, d ∈ fs'.dirs := by
  refine ⟨_, download_to_file_some e s hs cube_id selection folder config
      body fs, rfl, ?_, ?_⟩
  · show ((downloadPath folder cube_id selection, body) ::
        (mkdirParents folder fs).files.filter _).lookup
        (downloadPath folder cube_id selection) = some body
    simp [List.lookup]
  · intro d hd
    exact mkdirParents_mem folder fs d hd

/-- C7 witness: downloading cube `rentm` with no selection over a
filesystem that already holds a different file at the destination path. -/
theorem claim_C7_witness :
    ∃ fs' : FS,
      Engine.init.enter.download_to_file "rentm" none "data/raw" []
          [65, 66] ⟨[], [("data/raw/rentm_all.csv", [9])]⟩ =
        .ok (fs', downloadPath "data/raw" "rentm" none) ∧
      downloadPath "data/raw" "rentm" none =
        "data/raw" ++ "/" ++ "rentm" ++ "_" ++ selOrAll none ++ ".csv" ∧
      fs'.files.lookup (downloadPath "data/raw" "rentm" none) =
        some [65, 66] ∧
      ∀ d ∈ pathAncestors "data/raw", d ∈ fs'.dirs :=
  claim_C7 Engine.init.enter ⟨false⟩ rfl "rentm" none "data/raw" []
    [65, 66] ⟨[], [("data/raw/rentm_all.csv", [9])]⟩

/-- C1 counterexample: over the identifiers `["A", "B", "C"]` with every
`random()` draw equal to `1/5`, `download_to_files` performs THREE pauses
(the guard `len(cubes_ids) > 1` sits inside the loop, so it also sleeps
after the last download), not the claimed two. -/
theorem claim_C1_counterexample :
    (Engine.init.enter.download_to_files ["A", "B", "C"] none "data/raw"
        [] (fun _ => []) (fun _ => (1 : ℚ) / 5) ⟨[], []⟩).map
      (fun r => (r.2.2.length, r.2.2)) = .ok (3, [1, 1, 1]) := by
  simp [Engine.download_to_files, downloadFilesGo,
    download_to_file_some Engine.init.enter ⟨false⟩ rfl, Except.map]

/-- C1 (amended): over `[A, B, C]` the operation returns exactly 3 paths
in order `[A, B, C]` and performs exactly THREE pauses — one after every
download, the last included — each of duration `min(r*5, 2)` for `r` the
corresponding `random()` draw, hence each in `[0, 2]` when every draw lies
in `[0, 1)`. -/
theorem claim_C1 (e : Engine) (s : Session) (hs : e.session = some s)
    (a b c : String) (selection : Option String) (folder : String)
    (config : Params) (bodies : String → List Nat) (rng : Nat → ℚ)
    (fs : FS) (hr : ∀ i, 0 ≤ rng i ∧ rng i < 1) :
    (e.download_to_files [a, b, c] selection folder config bodies rng
        fs).map (fun r => r.2) =
      .ok ([downloadPath folder a selection,
            downloadPath folder b selection,
            downloadPath folder c selection],
           [min (rng 0 * 5) 2, min (rng 1 * 5) 2, min (rng 2 * 5) 2]) ∧
    ∀ q ∈ [min (rng 0 * 5) 2, min (rng 1 * 5) 2, min (rng 2 * 5) 2],
      0 ≤ q ∧ q ≤ 2 := by
  have hd := download_to_file_some e s hs
  constructor
  · simp [Engine.download_to_files, downloadFilesGo, hd, Except.map]
  · have key : ∀ i, 0 ≤ min (rng i * 5) 2 ∧ min (rng i * 5) 2 ≤ 2 :=
      fun i =>
        ⟨le_min (mul_nonneg (hr i).1 (by norm_num)) (by norm_num),
         min_le_right _ _⟩
    intro q hq
    simp only [List.mem_cons, List.not_mem_nil, or_false] at hq
    rcases hq with rfl | rfl | rfl
    · exact key 0
    · exact key 1
    · exact key 2

/-- C1 witness: the amended statement at the concrete run of the
counterexample. -/
theorem claim_C1_witness :
    (Engine.init.enter.download_to_files ["A", "B", "C"] none "data/raw"
        [] (fun _ => []) (fun _ => (1 : ℚ) / 5) ⟨[], []⟩).map
      (fun r => r.2) =
      .ok (["data/raw/A_all.csv", "data/raw/B_all.csv",
            "data/raw/C_all.csv"],
           [min ((1 : ℚ) / 5 * 5) 2, min ((1 : ℚ) / 5 * 5) 2,
            min ((1 : ℚ) / 5 * 5) 2]) ∧
    ∀ q ∈ [min ((1 : ℚ) / 5 * 5) 2, min ((1 : ℚ) / 5 * 5) 2,
           min ((1 : ℚ) / 5 * 5) 2],
      0 ≤ q ∧ q ≤ 2 :=
  claim_C1 Engine.init.enter ⟨false⟩ rfl "A" "B" "C" none "data/raw" []
    (fun _ => []) (fun _ => (1 : ℚ) / 5) ⟨[], []⟩
    (fun _ => by norm_num)

end SNBStream
